import Mathlib

/-!
# Verification of the labeled-sample partition and comparison renderer

Shallow embedding of `examples/temp_do_not_use.py`: the row partitioner
`_get_sample_indices` (numpy `np.where` plus fancy indexing) and the
`visualize` routine (input validation followed by a fixed four-panel
rendering sequence, optional save and show).  Matrices are modelled as a
column count together with a list of rows; the rendering backend is
modelled as a trace of events, and each fallible step returns `Except`.
-/

set_option autoImplicit false

namespace PyodViz

/-- A numpy 2-d array of shape `(rows.length, ncols)`: the column count is
carried explicitly so that an empty row selection still remembers its
column count, exactly as a numpy array of shape `(0, n)` does. -/
structure NPMatrix where
  ncols : Nat
  rows : List (List Int)
deriving DecidableEq

/-- Number of samples (`X.shape[0]`). -/
def NPMatrix.nrows (X : NPMatrix) : Nat := X.rows.length

/-- The numpy `X.shape` pair `(n_samples, n_features)`. -/
def NPMatrix.shape (X : NPMatrix) : Nat × Nat := (X.rows.length, X.ncols)

/-- Indices `i ≥ start` (offset bookkeeping for `np.where`): positions in
`y`, shifted by `start`, whose entry equals `v`. -/
def whereAux (y : List Int) (v : Int) (start : Nat) : List Nat :=
  match y with
  | [] => []
  | a :: t => if a = v then start :: whereAux t v (start + 1) else whereAux t v (start + 1)

/-- Embedding of `np.where(y == v)` for a 1-d integer array `y`: the
ascending list of indices at which `y` equals `v`. -/
def npWhere (y : List Int) (v : Int) : List Nat := whereAux y v 0

/-- Row gathering for fancy indexing: the rows of `rs` at the given index
list, `none` (numpy `IndexError`) if any index is out of bounds. -/
def gather (rs : List (List Int)) : List Nat → Option (List (List Int))
  | [] => some []
  | i :: t =>
    match rs.get? i, gather rs t with
    | some r, some rest => some (r :: rest)
    | _, _ => none

/-- Embedding of numpy fancy indexing `X[idx]`: the selected rows in index
order, column count preserved; `none` models an `IndexError`. -/
def fancyIndex (X : NPMatrix) (idx : List Nat) : Option NPMatrix :=
  (gather X.rows idx).map (fun rs => ⟨X.ncols, rs⟩)

/-- Embedding of `_get_sample_indices`:
`X_outliers = X[np.where(y == 1)]`, `X_inliers = X[np.where(y == 0)]`,
returned as the pair `(X_outliers, X_inliers)`. -/
def get_sample_indices (X : NPMatrix) (y : List Int) : Option (NPMatrix × NPMatrix) := do
  let X_outliers ← fancyIndex X (npWhere y 1)
  let X_inliers ← fancyIndex X (npWhere y 0)
  return (X_outliers, X_inliers)

/-- Specification-side characterization of a label selection: the rows of
`X` paired with label `v`, in original ascending row order. -/
def rows_with_label (X : NPMatrix) (y : List Int) (v : Int) : List (List Int) :=
  ((X.rows.zip y).filter (fun p => decide (p.2 = v))).map Prod.fst

/-! ## The `visualize` routine -/

/-- The error outcomes of the validation steps in `visualize`: the sklearn
checks for a minimum of one sample and of one feature (each carrying the
offending array's shape, which sklearn's message interpolates), the
sklearn consistent-length check (carrying the two lengths it reports),
and the explicit shape check of `visualize` (carrying the shape that its
message interpolates, which the source writes as `X_train.shape`);
`index_error` models a numpy `IndexError` from fancy indexing. -/
inductive VizError
  | empty_array : Nat × Nat → VizError
  | empty_features : Nat × Nat → VizError
  | length_mismatch : Nat → Nat → VizError
  | shape_error : Nat × Nat → VizError
  | index_error : VizError
deriving DecidableEq

/-- Embedding of sklearn `check_array` as used on an already 2-d numeric
matrix: with the defaults `ensure_min_samples=1` and
`ensure_min_features=1` it first rejects a matrix with zero samples, then
a (nonempty) matrix with zero feature columns — each error carrying the
offending array's own shape — and otherwise passes the array through. -/
def check_array (X : NPMatrix) : Except VizError NPMatrix :=
  if X.rows.length = 0 then .error (.empty_array X.shape)
  else if X.ncols = 0 then .error (.empty_features X.shape)
  else .ok X

/-- Embedding of sklearn `check_consistent_length` on two 1-d arrays,
compared through their lengths. -/
def check_consistent_length (la lb : Nat) : Except VizError Unit :=
  if la = lb then .ok () else .error (.length_mismatch la lb)

/-- Embedding of sklearn `check_X_y`: validate `X`, then require `X` and
`y` to have the same number of samples. -/
def check_X_y (X : NPMatrix) (y : List Int) : Except VizError (NPMatrix × List Int) :=
  match check_array X with
  | .error e => .error e
  | .ok X' =>
    match check_consistent_length X'.rows.length y.length with
    | .error e => .error e
    | .ok _ => .ok (X', y)

/-- Embedding of sklearn `column_or_1d` on a label vector that is already
1-d: it passes through unchanged (reshaping of higher-rank numpy input is
outside the model, whose label vectors are 1-d by construction). -/
def column_or_1d (y : List Int) : Except VizError (List Int) := .ok y

/-- One call to `_add_sub_plot`, recorded with the data and styling it
receives: inliers, outliers, title, and the two colors. -/
structure SubplotCall where
  inliers : NPMatrix
  outliers : NPMatrix
  title : String
  inlier_color : String
  outlier_color : String
deriving DecidableEq

/-- The observable effects of `visualize` on the matplotlib backend and the
filesystem, in order: figure creation with a size, the overall suptitle,
`fig.add_subplot` with a position code, one `_add_sub_plot` invocation,
`plt.savefig` with filename and dpi, and `plt.show`. -/
inductive VizEvent
  | figure : Nat → Nat → VizEvent
  | suptitle : String → VizEvent
  | add_subplot : Nat → VizEvent
  | draw : SubplotCall → VizEvent
  | savefig : String → Nat → VizEvent
  | display : VizEvent
deriving DecidableEq

/-- Embedding of `_add_sub_plot`: it draws one panel
(axis setup, two scatter series, title, ticks, legend), recorded as a
single draw event carrying its arguments. -/
def add_sub_plot (X_inliers X_outliers : NPMatrix)
    (sub_plot_title inlier_color outlier_color : String) : List VizEvent :=
  [.draw ⟨X_inliers, X_outliers, sub_plot_title, inlier_color, outlier_color⟩]

/-- Lift the numpy fancy-indexing result into the error monad: `none`
becomes an `IndexError`. -/
def liftOpt {α : Type} (o : Option α) : Except VizError α :=
  match o with
  | none => .error .index_error
  | some a => .ok a

/-- The fixed rendering sequence of `visualize` once validation has
passed: figure creation, suptitle, and the four positioned subplots in
the order train ground truth, train prediction, test ground truth, test
prediction, optionally followed by a save and then a show. -/
def render_trace (clf_name : String)
    (X_train_inliers X_train_outliers X_train_inliers_pred X_train_outliers_pred
      X_test_inliers X_test_outliers X_test_inliers_pred X_test_outliers_pred : NPMatrix)
    (show_figure save_figure : Bool) : List VizEvent :=
  [VizEvent.figure 12 10, VizEvent.suptitle ("Demo of " ++ clf_name),
      VizEvent.add_subplot 221]
    ++ add_sub_plot X_train_inliers X_train_outliers
        "Train set ground truth" "blue" "orange"
    ++ [VizEvent.add_subplot 222]
    ++ add_sub_plot X_train_inliers_pred X_train_outliers_pred
        "Train set prediction" "blue" "orange"
    ++ [VizEvent.add_subplot 223]
    ++ add_sub_plot X_test_inliers X_test_outliers
        "Test set ground truth" "green" "red"
    ++ [VizEvent.add_subplot 224]
    ++ add_sub_plot X_test_inliers_pred X_test_outliers_pred
        "Test set prediction" "green" "red"
    ++ (if save_figure then [VizEvent.savefig (clf_name ++ ".png") 300] else [])
    ++ (if show_figure then [VizEvent.display] else [])

/-- Embedding of `visualize`: validate the four data/label pairs, enforce
the 2-column shape, partition the four (dataset × truth-vs-prediction)
combinations, and emit the fixed rendering event sequence, optionally
followed by a save and a show. -/
def visualize (clf_name : String) (X_train : NPMatrix) (y_train : List Int)
    (X_test : NPMatrix) (y_test : List Int)
    (y_train_pred y_test_pred : List Int)
    (show_figure save_figure : Bool) : Except VizError (List VizEvent) :=
  match check_X_y X_train y_train with
  | .error e => .error e
  | .ok (X_train, y_train) =>
  match check_X_y X_test y_test with
  | .error e => .error e
  | .ok (X_test, y_test) =>
  match column_or_1d y_test_pred with
  | .error e => .error e
  | .ok y_test_pred =>
  match column_or_1d y_train_pred with
  | .error e => .error e
  | .ok y_train_pred =>
  if X_train.ncols ≠ 2 ∨ X_test.ncols ≠ 2 then
    .error (.shape_error X_train.shape)
  else
  match check_consistent_length y_train.length y_train_pred.length with
  | .error e => .error e
  | .ok _ =>
  match check_consistent_length y_test.length y_test_pred.length with
  | .error e => .error e
  | .ok _ =>
  match liftOpt (get_sample_indices X_train y_train) with
  | .error e => .error e
  | .ok (X_train_outliers, X_train_inliers) =>
  match liftOpt (get_sample_indices X_train y_train_pred) with
  | .error e => .error e
  | .ok (X_train_outliers_pred, X_train_inliers_pred) =>
  match liftOpt (get_sample_indices X_test y_test) with
  | .error e => .error e
  | .ok (X_test_outliers, X_test_inliers) =>
  match liftOpt (get_sample_indices X_test y_test_pred) with
  | .error e => .error e
  | .ok (X_test_outliers_pred, X_test_inliers_pred) =>
  .ok (render_trace clf_name
    X_train_inliers X_train_outliers X_train_inliers_pred X_train_outliers_pred
    X_test_inliers X_test_outliers X_test_inliers_pred X_test_outliers_pred
    show_figure save_figure)

/-- The `_add_sub_plot` invocations of a trace, in order. -/
def draw_calls (ev : List VizEvent) : List SubplotCall :=
  ev.filterMap (fun e => match e with | .draw c => some c | _ => none)

/-- The `plt.savefig` invocations of a trace, as (filename, dpi) pairs. -/
def save_calls (ev : List VizEvent) : List (String × Nat) :=
  ev.filterMap (fun e => match e with | .savefig f d => some (f, d) | _ => none)

/-- The number of `plt.show` invocations of a trace. -/
def display_count (ev : List VizEvent) : Nat :=
  (ev.filter (fun e => match e with | .display => true | _ => false)).length

/-- True when no `plt.savefig` occurs after a `plt.show` in the trace,
i.e. every save precedes every display. -/
def no_save_after_display : List VizEvent → Bool
  | [] => true
  | .display :: t => (save_calls t).isEmpty && no_save_after_display t
  | _ :: t => no_save_after_display t

/-! ## Lemmas about the partitioner -/

theorem whereAux_succ (y : List Int) (v : Int) :
    ∀ start : Nat, whereAux y v (start + 1) = (whereAux y v start).map (· + 1) := by
  induction y with
  | nil => intro start; simp [whereAux]
  | cons a t ih =>
    intro start
    by_cases h : a = v <;> simp [whereAux, h, ih (start + 1), ih start]

theorem gather_map_succ (r : List Int) (rs : List (List Int)) :
    ∀ l : List Nat, gather (r :: rs) (l.map (· + 1)) = gather rs l := by
  intro l
  induction l with
  | nil => rfl
  | cons i t ih => simp [gather, ih]

theorem gather_npWhere (v : Int) :
    ∀ (y : List Int) (rs : List (List Int)), y.length ≤ rs.length →
      gather rs (npWhere y v) =
        some (((rs.zip y).filter (fun p => decide (p.2 = v))).map Prod.fst) := by
  intro y
  induction y with
  | nil => intro rs _; simp [npWhere, whereAux, gather]
  | cons a t ih =>
    intro rs hlen
    match rs with
    | [] => simp at hlen
    | r :: rs' =>
      simp only [List.length_cons, Nat.succ_le_succ_iff] at hlen
      have hshift : whereAux t v 1 = (npWhere t v).map (· + 1) := whereAux_succ t v 0
      by_cases h : a = v
      · simp only [npWhere, whereAux, if_pos h, List.zip_cons_cons, List.filter_cons,
          h, List.map_cons]
        show gather (r :: rs') (0 :: whereAux t v (0 + 1)) = _
        simp only [Nat.zero_add, hshift, gather, List.get?, gather_map_succ r rs',
          ih rs' hlen]
        simp [h]
      · simp only [npWhere, whereAux, if_neg h]
        show gather (r :: rs') (whereAux t v (0 + 1)) = _
        simp only [Nat.zero_add, hshift, gather_map_succ r rs', ih rs' hlen]
        simp [h]

theorem fancyIndex_npWhere (X : NPMatrix) (y : List Int) (v : Int)
    (hlen : y.length ≤ X.rows.length) :
    fancyIndex X (npWhere y v) = some ⟨X.ncols, rows_with_label X y v⟩ := by
  simp [fancyIndex, gather_npWhere v y X.rows hlen, rows_with_label]

/-- On equal-length inputs the partitioner never hits an index error and
returns exactly the label-1 rows and the label-0 rows. -/
theorem get_sample_indices_eq (X : NPMatrix) (y : List Int)
    (hlen : y.length ≤ X.rows.length) :
    get_sample_indices X y =
      some (⟨X.ncols, rows_with_label X y 1⟩, ⟨X.ncols, rows_with_label X y 0⟩) := by
  simp [get_sample_indices, fancyIndex_npWhere X y 1 hlen, fancyIndex_npWhere X y 0 hlen]

theorem mem_npWhere (v : Int) :
    ∀ (y : List Int) (k : Nat), k ∈ npWhere y v ↔ y.get? k = some v := by
  intro y
  induction y with
  | nil => intro k; simp [npWhere, whereAux]
  | cons a t ih =>
    intro k
    have hshift : whereAux t v (0 + 1) = (npWhere t v).map (· + 1) := whereAux_succ t v 0
    by_cases h : a = v
    · cases k with
      | zero => simp [npWhere, whereAux, h]
      | succ n =>
        simp only [npWhere, whereAux, if_pos h, hshift, List.mem_cons, List.mem_map,
          List.get?]
        constructor
        · rintro (hk | ⟨x, hx, hxk⟩)
          · exact absurd hk (Nat.succ_ne_zero n)
          · have : x = n := Nat.add_right_cancel hxk
            exact (ih n).mp (this ▸ hx)
        · intro hk
          exact Or.inr ⟨n, (ih n).mpr hk, rfl⟩
    · cases k with
      | zero => simp [npWhere, whereAux, if_neg h, hshift, h]
      | succ n =>
        simp only [npWhere, whereAux, if_neg h, hshift, List.mem_map, List.get?]
        constructor
        · rintro ⟨x, hx, hxk⟩
          have : x = n := Nat.add_right_cancel hxk
          exact (ih n).mp (this ▸ hx)
        · intro hk
          exact ⟨n, (ih n).mpr hk, rfl⟩

theorem mem_npWhere_lt {y : List Int} {v : Int} {k : Nat} (h : k ∈ npWhere y v) :
    k < y.length := by
  have := (mem_npWhere v y k).mp h
  exact List.get?_eq_some.mp this |>.1

theorem length_filter_binary :
    ∀ (y : List Int) (rs : List (List Int)), (∀ v ∈ y, v = 0 ∨ v = 1) →
      rs.length = y.length →
      ((rs.zip y).filter (fun p => decide (p.2 = 1))).length
        + ((rs.zip y).filter (fun p => decide (p.2 = 0))).length = rs.length := by
  intro y
  induction y with
  | nil =>
    intro rs _ hlen
    simp [List.length_eq_zero.mp hlen]
  | cons a t ih =>
    intro rs hbin hlen
    match rs with
    | [] => simp at hlen
    | r :: rs' =>
      simp only [List.length_cons, Nat.succ.injEq] at hlen
      have hbt : ∀ v ∈ t, v = 0 ∨ v = 1 := fun v hv => hbin v (List.mem_cons_of_mem a hv)
      have hsum := ih rs' hbt hlen
      rcases hbin a (List.mem_cons_self a t) with h | h
      · simp only [List.zip_cons_cons, List.filter_cons, h, List.length_cons]
        norm_num
        omega
      · simp only [List.zip_cons_cons, List.filter_cons, h, List.length_cons]
        norm_num
        omega

theorem rows_with_label_all (X : NPMatrix) (y : List Int) (v : Int)
    (hlen : y.length = X.rows.length) (hall : ∀ w ∈ y, w = v) :
    rows_with_label X y v = X.rows := by
  unfold rows_with_label
  have hfil : (X.rows.zip y).filter (fun p => decide (p.2 = v)) = X.rows.zip y := by
    apply List.filter_eq_self.mpr
    intro p hp
    have := List.of_mem_zip hp
    exact decide_eq_true (hall p.2 this.2)
  rw [hfil]
  exact List.map_fst_zip X.rows y (le_of_eq hlen.symm)

theorem rows_with_label_none (X : NPMatrix) (y : List Int) (v : Int)
    (hne : ∀ u ∈ y, u ≠ v) :
    rows_with_label X y v = [] := by
  unfold rows_with_label
  have hfil : (X.rows.zip y).filter (fun p => decide (p.2 = v)) = [] := by
    apply List.filter_eq_nil_iff.mpr
    intro p hp
    have := List.of_mem_zip hp
    simp [hne p.2 this.2]
  simp [hfil]

/-! ## Claims about the partitioner -/

/-- C1: on equal-length inputs with binary labels, `_get_sample_indices`
returns exactly the label-1 rows as outliers and the label-0 rows as
inliers, each in original ascending row order; the two row counts sum to
the input row count, and the selected index sets are disjoint. -/
theorem C1_partition_exact (X : NPMatrix) (y : List Int)
    (hlen : y.length = X.rows.length) (hbin : ∀ v ∈ y, v = 0 ∨ v = 1) :
    get_sample_indices X y =
      some (⟨X.ncols, rows_with_label X y 1⟩, ⟨X.ncols, rows_with_label X y 0⟩) ∧
    (rows_with_label X y 1).length + (rows_with_label X y 0).length = X.rows.length ∧
    ∀ k : Nat, ¬(k ∈ npWhere y 1 ∧ k ∈ npWhere y 0) := by
  refine ⟨get_sample_indices_eq X y (le_of_eq hlen), ?_, ?_⟩
  · unfold rows_with_label
    simp only [List.length_map]
    exact length_filter_binary y X.rows hbin hlen.symm
  · intro k ⟨h1, h0⟩
    have e1 := (mem_npWhere 1 y k).mp h1
    have e0 := (mem_npWhere 0 y k).mp h0
    rw [e1] at e0
    exact absurd (Option.some.inj e0) (by decide)

/-- Witness for C1 at a concrete two-row matrix with labels `[1, 0]`. -/
theorem C1_partition_exact_witness :
    get_sample_indices ⟨2, [[0,0],[1,1]]⟩ [1,0] =
      some (⟨2, rows_with_label ⟨2, [[0,0],[1,1]]⟩ [1,0] 1⟩,
            ⟨2, rows_with_label ⟨2, [[0,0],[1,1]]⟩ [1,0] 0⟩) ∧
    (rows_with_label ⟨2, [[0,0],[1,1]]⟩ [1,0] 1).length
      + (rows_with_label ⟨2, [[0,0],[1,1]]⟩ [1,0] 0).length
      = (NPMatrix.mk 2 [[0,0],[1,1]]).rows.length ∧
    ∀ k : Nat, ¬(k ∈ npWhere [1,0] 1 ∧ k ∈ npWhere [1,0] 0) :=
  C1_partition_exact ⟨2, [[0,0],[1,1]]⟩ [1,0] (by decide) (by decide)

/-- C2 as stated is false: a label outside `{0, 1}` (here `y = [2]`)
leaves its row out of both subsets, so the two row counts sum to `0`
while the input has `1` row. -/
theorem C2_counterexample :
    get_sample_indices ⟨2, [[0,0]]⟩ [2] = some (⟨2, []⟩, ⟨2, []⟩) ∧
    (NPMatrix.mk 2 []).nrows + (NPMatrix.mk 2 []).nrows ≠
      (NPMatrix.mk 2 [[0,0]]).nrows := by
  exact ⟨by decide, by decide⟩

/-- C2 amended: for equal-length inputs whose labels all lie in `{0, 1}`,
the partition is total and disjoint: the two row counts sum to the input
row count and every row index lands in exactly one of the two selected
index sets. -/
theorem C2_partition_total_disjoint (X : NPMatrix) (y : List Int)
    (hlen : y.length = X.rows.length) (hbin : ∀ v ∈ y, v = 0 ∨ v = 1) :
    ∃ o i, get_sample_indices X y = some (o, i) ∧
      o.nrows + i.nrows = X.nrows ∧
      ∀ k, k < X.nrows →
        (k ∈ npWhere y 1 ∧ k ∉ npWhere y 0) ∨ (k ∉ npWhere y 1 ∧ k ∈ npWhere y 0) := by
  refine ⟨⟨X.ncols, rows_with_label X y 1⟩, ⟨X.ncols, rows_with_label X y 0⟩,
    get_sample_indices_eq X y (le_of_eq hlen), ?_, ?_⟩
  · show (rows_with_label X y 1).length + (rows_with_label X y 0).length = X.rows.length
    unfold rows_with_label
    simp only [List.length_map]
    exact length_filter_binary y X.rows hbin hlen.symm
  · intro k hk
    have hky : k < y.length := by
      unfold NPMatrix.nrows at hk
      omega
    obtain ⟨v, hv⟩ : ∃ v, y.get? k = some v := ⟨y.get ⟨k, hky⟩, List.get?_eq_get hky⟩
    have hvmem : v ∈ y := List.get?_mem hv
    have h1iff := mem_npWhere 1 y k
    have h0iff := mem_npWhere 0 y k
    rcases hbin v hvmem with h | h
    · subst h
      right
      refine ⟨fun hmem => ?_, h0iff.mpr hv⟩
      have := h1iff.mp hmem
      rw [hv] at this
      exact absurd (Option.some.inj this) (by decide)
    · subst h
      left
      refine ⟨h1iff.mpr hv, fun hmem => ?_⟩
      have := h0iff.mp hmem
      rw [hv] at this
      exact absurd (Option.some.inj this) (by decide)

/-- Witness for the amended C2 at labels `[1, 0]`. -/
theorem C2_partition_total_disjoint_witness :
    ∃ o i, get_sample_indices ⟨2, [[0,0],[1,1]]⟩ [1,0] = some (o, i) ∧
      o.nrows + i.nrows = (NPMatrix.mk 2 [[0,0],[1,1]]).nrows ∧
      ∀ k, k < (NPMatrix.mk 2 [[0,0],[1,1]]).nrows →
        (k ∈ npWhere [1,0] 1 ∧ k ∉ npWhere [1,0] 0) ∨
        (k ∉ npWhere [1,0] 1 ∧ k ∈ npWhere [1,0] 0) :=
  C2_partition_total_disjoint ⟨2, [[0,0],[1,1]]⟩ [1,0] (by decide) (by decide)

/-- C3 as stated is false: with a 2-row matrix and a 1-entry label vector
(`row_count ≠ y.length`), `_get_sample_indices` returns a result instead
of failing with a length-mismatch error. -/
theorem C3_counterexample :
    (get_sample_indices ⟨2, [[0,0],[1,1]]⟩ [1]).isSome = true := by decide

/-- C3 amended: `_get_sample_indices` performs no length validation.
Whenever `y` is no longer than `X`, it returns a result (no error), and
rows at indices at or beyond `y.length` fall in neither subset. -/
theorem C3_no_length_validation (X : NPMatrix) (y : List Int)
    (hlen : y.length ≤ X.rows.length) :
    (get_sample_indices X y).isSome = true ∧
    ∀ k, y.length ≤ k → k ∉ npWhere y 1 ∧ k ∉ npWhere y 0 := by
  constructor
  · rw [get_sample_indices_eq X y hlen]
    rfl
  · intro k hk
    constructor
    · intro hmem
      exact absurd (mem_npWhere_lt hmem) (by omega)
    · intro hmem
      exact absurd (mem_npWhere_lt hmem) (by omega)

/-- Witness for the amended C3 at a 2-row matrix with a 1-entry `y`. -/
theorem C3_no_length_validation_witness :
    (get_sample_indices ⟨2, [[0,0],[1,1]]⟩ [1]).isSome = true ∧
    ∀ k, ([1] : List Int).length ≤ k → k ∉ npWhere [1] 1 ∧ k ∉ npWhere [1] 0 :=
  C3_no_length_validation ⟨2, [[0,0],[1,1]]⟩ [1] (by decide)

/-- C8: `_get_sample_indices` is deterministic — equal inputs give equal
outputs.  In the embedding it is a pure function on immutable values,
mirroring the source, where `np.where` and fancy indexing allocate fresh
arrays and never write to `X` or `y`. -/
theorem C8_deterministic (X₁ X₂ : NPMatrix) (y₁ y₂ : List Int)
    (hX : X₁ = X₂) (hy : y₁ = y₂) :
    get_sample_indices X₁ y₁ = get_sample_indices X₂ y₂ := by
  rw [hX, hy]

/-- Witness for C8 at a concrete input. -/
theorem C8_deterministic_witness :
    get_sample_indices ⟨2, [[0,0],[1,1]]⟩ [1,0] =
      get_sample_indices ⟨2, [[0,0],[1,1]]⟩ [1,0] :=
  C8_deterministic ⟨2, [[0,0],[1,1]]⟩ ⟨2, [[0,0],[1,1]]⟩ [1,0] [1,0] rfl rfl

/-- C9: for a 2-column `X` with an equal-length `y`, an all-zero `y`
yields an empty outliers subset of shape `(0, 2)` with inliers equal to
all of `X`, and an all-one `y` yields an empty inliers subset of shape
`(0, 2)` with outliers equal to all of `X`. -/
theorem C9_boundary (X : NPMatrix) (y : List Int)
    (hc : X.ncols = 2) (hlen : y.length = X.rows.length) :
    ((∀ v ∈ y, v = 0) →
      get_sample_indices X y = some (⟨2, []⟩, X) ∧
        (NPMatrix.mk 2 []).shape = (0, 2)) ∧
    ((∀ v ∈ y, v = 1) →
      get_sample_indices X y = some (X, ⟨2, []⟩) ∧
        (NPMatrix.mk 2 []).shape = (0, 2)) := by
  obtain ⟨c, rows⟩ := X
  simp only at hc hlen
  subst hc
  constructor
  · intro hall
    refine ⟨?_, rfl⟩
    rw [get_sample_indices_eq ⟨2, rows⟩ y (le_of_eq hlen)]
    rw [rows_with_label_all ⟨2, rows⟩ y 0 hlen hall,
        rows_with_label_none ⟨2, rows⟩ y 1 (fun u hu => by rw [hall u hu]; decide)]
  · intro hall
    refine ⟨?_, rfl⟩
    rw [get_sample_indices_eq ⟨2, rows⟩ y (le_of_eq hlen)]
    rw [rows_with_label_all ⟨2, rows⟩ y 1 hlen hall,
        rows_with_label_none ⟨2, rows⟩ y 0 (fun u hu => by rw [hall u hu]; decide)]

/-- Witness for C9 at a concrete 2-column matrix, all-zero and all-one. -/
theorem C9_boundary_witness :
    (get_sample_indices ⟨2, [[0,0],[1,1]]⟩ [0,0] =
        some (⟨2, []⟩, ⟨2, [[0,0],[1,1]]⟩) ∧
      (NPMatrix.mk 2 []).shape = (0, 2)) ∧
    (get_sample_indices ⟨2, [[0,0],[1,1]]⟩ [1,1] =
        some (⟨2, [[0,0],[1,1]]⟩, ⟨2, []⟩) ∧
      (NPMatrix.mk 2 []).shape = (0, 2)) :=
  ⟨(C9_boundary ⟨2, [[0,0],[1,1]]⟩ [0,0] rfl (by decide)).1 (by decide),
   (C9_boundary ⟨2, [[0,0],[1,1]]⟩ [1,1] rfl (by decide)).2 (by decide)⟩

/-- C10: on equal-length inputs, a label entry outside `{0, 1}` raises no
error — the call still returns a result — and its row index is selected
into neither the outliers nor the inliers subset. -/
theorem C10_out_of_range (X : NPMatrix) (y : List Int) (k : Nat) (v : Int)
    (hlen : y.length = X.rows.length) (hk : y.get? k = some v)
    (h0 : v ≠ 0) (h1 : v ≠ 1) :
    (get_sample_indices X y).isSome = true ∧
    k ∉ npWhere y 1 ∧ k ∉ npWhere y 0 := by
  refine ⟨?_, ?_, ?_⟩
  · rw [get_sample_indices_eq X y (le_of_eq hlen)]; rfl
  · intro hmem
    have := (mem_npWhere 1 y k).mp hmem
    rw [hk] at this
    exact h1 (Option.some.inj this)
  · intro hmem
    have := (mem_npWhere 0 y k).mp hmem
    rw [hk] at this
    exact h0 (Option.some.inj this)

/-- Witness for C10 with `y = [2]`. -/
theorem C10_out_of_range_witness :
    (get_sample_indices ⟨2, [[0,0]]⟩ [2]).isSome = true ∧
    0 ∉ npWhere [2] 1 ∧ 0 ∉ npWhere [2] 0 :=
  C10_out_of_range ⟨2, [[0,0]]⟩ [2] 0 2 (by decide) (by decide) (by decide) (by decide)

/-! ## Lemmas about `visualize` -/

theorem check_X_y_ok (X : NPMatrix) (y : List Int) (hn : X.rows.length ≠ 0)
    (hf : X.ncols ≠ 0) (hl : X.rows.length = y.length) :
    check_X_y X y = .ok (X, y) := by
  simp only [check_X_y, check_array, check_consistent_length, if_neg hn, if_neg hf,
    if_pos hl]

/-- Complete forward evaluation of `visualize` on validated input: every
check passes and the result is the fixed rendering trace over the four
partitions. -/
theorem visualize_ok_eval (clf_name : String) (X_train : NPMatrix) (y_train : List Int)
    (X_test : NPMatrix) (y_test : List Int) (y_train_pred y_test_pred : List Int)
    (show_figure save_figure : Bool)
    (hn1 : X_train.rows.length ≠ 0) (hl1 : X_train.rows.length = y_train.length)
    (hn2 : X_test.rows.length ≠ 0) (hl2 : X_test.rows.length = y_test.length)
    (hc1 : X_train.ncols = 2) (hc2 : X_test.ncols = 2)
    (hp1 : y_train.length = y_train_pred.length)
    (hp2 : y_test.length = y_test_pred.length) :
    visualize clf_name X_train y_train X_test y_test y_train_pred y_test_pred
        show_figure save_figure =
      .ok (render_trace clf_name
        ⟨2, rows_with_label X_train y_train 0⟩ ⟨2, rows_with_label X_train y_train 1⟩
        ⟨2, rows_with_label X_train y_train_pred 0⟩ ⟨2, rows_with_label X_train y_train_pred 1⟩
        ⟨2, rows_with_label X_test y_test 0⟩ ⟨2, rows_with_label X_test y_test 1⟩
        ⟨2, rows_with_label X_test y_test_pred 0⟩ ⟨2, rows_with_label X_test y_test_pred 1⟩
        show_figure save_figure) := by
  have hg1 := get_sample_indices_eq X_train y_train (le_of_eq hl1.symm)
  have hg2 := get_sample_indices_eq X_train y_train_pred (by omega)
  have hg3 := get_sample_indices_eq X_test y_test (le_of_eq hl2.symm)
  have hg4 := get_sample_indices_eq X_test y_test_pred (by omega)
  have hf1 : X_train.ncols ≠ 0 := by rw [hc1]; decide
  have hf2 : X_test.ncols ≠ 0 := by rw [hc2]; decide
  have hshape : ¬(X_train.ncols ≠ 2 ∨ X_test.ncols ≠ 2) :=
    fun hor => hor.elim (fun hne => hne hc1) (fun hne => hne hc2)
  simp only [visualize, check_X_y, check_array, check_consistent_length, column_or_1d,
    if_neg hn1, if_neg hf1, if_pos hl1, if_neg hn2, if_neg hf2, if_pos hl2,
    if_neg hshape, if_pos hp1, if_pos hp2, hg1, hg2, hg3, hg4, liftOpt]
  simp [hc1, hc2]

/-- Inversion of a successful `visualize` call: every validation must have
passed and the returned event list is the fixed rendering trace over the
four partitions. -/
theorem visualize_ok_inv (clf_name : String) (X_train : NPMatrix) (y_train : List Int)
    (X_test : NPMatrix) (y_test : List Int) (y_train_pred y_test_pred : List Int)
    (show_figure save_figure : Bool) (ev : List VizEvent)
    (h : visualize clf_name X_train y_train X_test y_test y_train_pred y_test_pred
        show_figure save_figure = .ok ev) :
    ev = render_trace clf_name
      ⟨2, rows_with_label X_train y_train 0⟩ ⟨2, rows_with_label X_train y_train 1⟩
      ⟨2, rows_with_label X_train y_train_pred 0⟩ ⟨2, rows_with_label X_train y_train_pred 1⟩
      ⟨2, rows_with_label X_test y_test 0⟩ ⟨2, rows_with_label X_test y_test 1⟩
      ⟨2, rows_with_label X_test y_test_pred 0⟩ ⟨2, rows_with_label X_test y_test_pred 1⟩
      show_figure save_figure := by
  have hn1 : X_train.rows.length ≠ 0 := by
    intro hn1
    simp only [visualize, check_X_y, check_array, if_pos hn1] at h
    exact Except.noConfusion h
  have hf1 : X_train.ncols ≠ 0 := by
    intro hf1
    simp only [visualize, check_X_y, check_array, if_neg hn1, if_pos hf1] at h
    exact Except.noConfusion h
  have hl1 : X_train.rows.length = y_train.length := by
    by_contra hl1
    simp only [visualize, check_X_y, check_array, check_consistent_length,
      if_neg hn1, if_neg hf1, if_neg hl1] at h
    exact Except.noConfusion h
  have hn2 : X_test.rows.length ≠ 0 := by
    intro hn2
    simp only [visualize, check_X_y, check_array, check_consistent_length,
      if_neg hn1, if_neg hf1, if_pos hl1, if_pos hn2] at h
    exact Except.noConfusion h
  have hf2 : X_test.ncols ≠ 0 := by
    intro hf2
    simp only [visualize, check_X_y, check_array, check_consistent_length,
      if_neg hn1, if_neg hf1, if_pos hl1, if_neg hn2, if_pos hf2] at h
    exact Except.noConfusion h
  have hl2 : X_test.rows.length = y_test.length := by
    by_contra hl2
    simp only [visualize, check_X_y, check_array, check_consistent_length,
      if_neg hn1, if_neg hf1, if_pos hl1, if_neg hn2, if_neg hf2, if_neg hl2] at h
    exact Except.noConfusion h
  have hc1 : X_train.ncols = 2 := by
    by_contra hc1
    simp only [visualize, check_X_y, check_array, check_consistent_length, column_or_1d,
      if_neg hn1, if_neg hf1, if_pos hl1, if_neg hn2, if_neg hf2, if_pos hl2,
      if_pos (show X_train.ncols ≠ 2 ∨ X_test.ncols ≠ 2 from Or.inl hc1)] at h
    exact Except.noConfusion h
  have hc2 : X_test.ncols = 2 := by
    by_contra hc2
    simp only [visualize, check_X_y, check_array, check_consistent_length, column_or_1d,
      if_neg hn1, if_neg hf1, if_pos hl1, if_neg hn2, if_neg hf2, if_pos hl2,
      if_pos (show X_train.ncols ≠ 2 ∨ X_test.ncols ≠ 2 from Or.inr hc2)] at h
    exact Except.noConfusion h
  have hshape : ¬(X_train.ncols ≠ 2 ∨ X_test.ncols ≠ 2) :=
    fun hor => hor.elim (fun hne => hne hc1) (fun hne => hne hc2)
  have hp1 : y_train.length = y_train_pred.length := by
    by_contra hp1
    simp only [visualize, check_X_y, check_array, check_consistent_length, column_or_1d,
      if_neg hn1, if_neg hf1, if_pos hl1, if_neg hn2, if_neg hf2, if_pos hl2,
      if_neg hshape, if_neg hp1] at h
    exact Except.noConfusion h
  have hp2 : y_test.length = y_test_pred.length := by
    by_contra hp2
    simp only [visualize, check_X_y, check_array, check_consistent_length, column_or_1d,
      if_neg hn1, if_neg hf1, if_pos hl1, if_neg hn2, if_neg hf2, if_pos hl2,
      if_neg hshape, if_pos hp1, if_neg hp2] at h
    exact Except.noConfusion h
  rw [visualize_ok_eval clf_name X_train y_train X_test y_test y_train_pred
    y_test_pred show_figure save_figure hn1 hl1 hn2 hl2 hc1 hc2 hp1 hp2] at h
  exact (Except.ok.inj h).symm

/-! ## Claims about `visualize` -/

/-- C4 as stated is false: when `X_test` is the offending 3-column matrix
(and `X_train` is a valid 2-column one), the shape error carries
`X_train`'s shape `(1, 2)`, not the offending shape `(1, 3)` — the source
always interpolates `X_train.shape` into the message. -/
theorem C4_counterexample :
    visualize "LOF" ⟨2, [[0,0]]⟩ [0] ⟨3, [[0,0,0]]⟩ [0] [0] [0] true false
      = .error (.shape_error (1, 2)) ∧
    (NPMatrix.mk 3 [[0,0,0]]).shape = (1, 3) :=
  ⟨rfl, rfl⟩

/-- C4 amended: when both matrices pass sklearn's array validation (at
least one sample and one feature column each) and the length checks pass,
and `X_train` or `X_test` has a column count other than 2, `visualize`
fails before any figure is created with a shape error that always carries
`X_train`'s shape (even when `X_test` is the offending matrix).  A
zero-column matrix instead fails earlier, inside `check_X_y`, with
sklearn's zero-features error carrying that matrix's own shape. -/
theorem C4_shape_error (clf_name : String) (X_train : NPMatrix) (y_train : List Int)
    (X_test : NPMatrix) (y_test : List Int) (y_train_pred y_test_pred : List Int)
    (show_figure save_figure : Bool)
    (hn1 : X_train.rows.length ≠ 0) (hf1 : X_train.ncols ≠ 0)
    (hl1 : X_train.rows.length = y_train.length)
    (hn2 : X_test.rows.length ≠ 0) (hf2 : X_test.ncols ≠ 0)
    (hl2 : X_test.rows.length = y_test.length)
    (hc : X_train.ncols ≠ 2 ∨ X_test.ncols ≠ 2) :
    visualize clf_name X_train y_train X_test y_test y_train_pred y_test_pred
        show_figure save_figure = .error (.shape_error X_train.shape) := by
  simp only [visualize, check_X_y, check_array, check_consistent_length, column_or_1d,
    if_neg hn1, if_neg hf1, if_pos hl1, if_neg hn2, if_neg hf2, if_pos hl2, if_pos hc]

/-- Witness for the amended C4 with a 3-column test matrix. -/
theorem C4_shape_error_witness :
    visualize "LOF" ⟨2, [[0,0]]⟩ [0] ⟨3, [[0,0,0]]⟩ [0] [0] [0] true false
      = .error (.shape_error (NPMatrix.mk 2 [[0,0]]).shape) :=
  C4_shape_error "LOF" ⟨2, [[0,0]]⟩ [0] ⟨3, [[0,0,0]]⟩ [0] [0] [0] true false
    (by decide) (by decide) (by decide) (by decide) (by decide) (by decide)
    (Or.inr (by decide))

/-- C5 as stated is false: with a 3-column `X_train` and a mismatched
`y_train_pred` length (1 vs 2), the call fails with the shape error, not
with a length-consistency error — the shape check precedes the
label/prediction length check. -/
theorem C5_counterexample :
    visualize "LOF" ⟨3, [[0,0,0]]⟩ [0] ⟨2, [[0,0]]⟩ [0] [0,0] [0] true false
      = .error (.shape_error (1, 3)) ∧
    VizError.shape_error (1, 3) ≠ VizError.length_mismatch 1 2 :=
  ⟨rfl, by decide⟩

/-- C5 amended: a `y_train` length differing from `X_train`'s row count
fails with a length-consistency error provided `X_train` itself passes
sklearn's array validation (at least one sample and one feature column,
whose errors come first inside `check_X_y`), and a label/prediction
length mismatch fails with a length-consistency error provided the
earlier checks (including the 2-column shape check, which takes
precedence) pass; in both cases the call fails before any drawing,
producing no figure. -/
theorem C5_length_error (clf_name : String) (X_train : NPMatrix) (y_train : List Int)
    (X_test : NPMatrix) (y_test : List Int) (y_train_pred y_test_pred : List Int)
    (show_figure save_figure : Bool) :
    (X_train.rows.length ≠ 0 → X_train.ncols ≠ 0 →
     X_train.rows.length ≠ y_train.length →
      visualize clf_name X_train y_train X_test y_test y_train_pred y_test_pred
          show_figure save_figure =
        .error (.length_mismatch X_train.rows.length y_train.length)) ∧
    (X_train.rows.length ≠ 0 → X_train.rows.length = y_train.length →
     X_test.rows.length ≠ 0 → X_test.rows.length = y_test.length →
     X_train.ncols = 2 → X_test.ncols = 2 →
     y_train.length ≠ y_train_pred.length →
      visualize clf_name X_train y_train X_test y_test y_train_pred y_test_pred
          show_figure save_figure =
        .error (.length_mismatch y_train.length y_train_pred.length)) := by
  constructor
  · intro hn1 hf1 hl1
    simp only [visualize, check_X_y, check_array, check_consistent_length,
      if_neg hn1, if_neg hf1, if_neg hl1]
  · intro hn1 hl1 hn2 hl2 hc1 hc2 hp1
    have hf1 : X_train.ncols ≠ 0 := by rw [hc1]; decide
    have hf2 : X_test.ncols ≠ 0 := by rw [hc2]; decide
    have hshape : ¬(X_train.ncols ≠ 2 ∨ X_test.ncols ≠ 2) :=
      fun hor => hor.elim (fun hne => hne hc1) (fun hne => hne hc2)
    simp only [visualize, check_X_y, check_array, check_consistent_length, column_or_1d,
      if_neg hn1, if_neg hf1, if_pos hl1, if_neg hn2, if_neg hf2, if_pos hl2,
      if_neg hshape, if_neg hp1]

/-- Witness for the amended C5: one call with a train-label length
mismatch and one with a prediction length mismatch, both producing
length-consistency errors. -/
theorem C5_length_error_witness :
    visualize "LOF" ⟨2, [[0,0]]⟩ [0,0] ⟨2, [[0,0]]⟩ [0] [0] [0] true false
      = .error (.length_mismatch 1 2) ∧
    visualize "LOF" ⟨2, [[0,0]]⟩ [0] ⟨2, [[0,0]]⟩ [0] [0,0] [0] true false
      = .error (.length_mismatch 1 2) :=
  ⟨(C5_length_error "LOF" ⟨2, [[0,0]]⟩ [0,0] ⟨2, [[0,0]]⟩ [0] [0] [0] true false).1
      (by decide) (by decide) (by decide),
   (C5_length_error "LOF" ⟨2, [[0,0]]⟩ [0] ⟨2, [[0,0]]⟩ [0] [0,0] [0] true false).2
      (by decide) (by decide) (by decide) (by decide) rfl rfl (by decide)⟩

/-- C6: every successful `visualize` call invokes the subplot drawer
exactly four times, in the fixed order train ground truth, train
prediction, test ground truth, test prediction, with colors blue/orange
on the two train panels and green/red on the two test panels, and the
four fixed titles. -/
theorem C6_four_panels (clf_name : String) (X_train : NPMatrix) (y_train : List Int)
    (X_test : NPMatrix) (y_test : List Int) (y_train_pred y_test_pred : List Int)
    (show_figure save_figure : Bool) (ev : List VizEvent)
    (h : visualize clf_name X_train y_train X_test y_test y_train_pred y_test_pred
        show_figure save_figure = .ok ev) :
    (draw_calls ev).map (fun c => (c.title, c.inlier_color, c.outlier_color)) =
      [("Train set ground truth", "blue", "orange"),
       ("Train set prediction", "blue", "orange"),
       ("Test set ground truth", "green", "red"),
       ("Test set prediction", "green", "red")] := by
  rw [visualize_ok_inv clf_name X_train y_train X_test y_test y_train_pred y_test_pred
    show_figure save_figure ev h]
  cases save_figure <;> cases show_figure <;>
    simp [render_trace, add_sub_plot, draw_calls, List.filterMap_append]

/-- C7: every successful `visualize` call with save requested writes
exactly one file, named `<detector_name>.png`, at DPI 300; the save event
precedes any display event; and the display count matches the show flag,
so `show_figure = false` displays no window. -/
theorem C7_save_file (clf_name : String) (X_train : NPMatrix) (y_train : List Int)
    (X_test : NPMatrix) (y_test : List Int) (y_train_pred y_test_pred : List Int)
    (show_figure : Bool) (ev : List VizEvent)
    (h : visualize clf_name X_train y_train X_test y_test y_train_pred y_test_pred
        show_figure true = .ok ev) :
    save_calls ev = [(clf_name ++ ".png", 300)] ∧
    display_count ev = (if show_figure then 1 else 0) ∧
    no_save_after_display ev = true := by
  rw [visualize_ok_inv clf_name X_train y_train X_test y_test y_train_pred y_test_pred
    show_figure true ev h]
  cases show_figure <;>
    simp [render_trace, add_sub_plot, save_calls, display_count,
      no_save_after_display, List.filterMap_append]

/-- A concrete successful rendering trace: detector "LOF", one-row
2-column data everywhere, `show_figure = false`, `save_figure = true`. -/
def ev_demo : List VizEvent :=
  [VizEvent.figure 12 10, VizEvent.suptitle "Demo of LOF", VizEvent.add_subplot 221,
   VizEvent.draw ⟨⟨2, [[0,0]]⟩, ⟨2, []⟩, "Train set ground truth", "blue", "orange"⟩,
   VizEvent.add_subplot 222,
   VizEvent.draw ⟨⟨2, [[0,0]]⟩, ⟨2, []⟩, "Train set prediction", "blue", "orange"⟩,
   VizEvent.add_subplot 223,
   VizEvent.draw ⟨⟨2, [[0,0]]⟩, ⟨2, []⟩, "Test set ground truth", "green", "red"⟩,
   VizEvent.add_subplot 224,
   VizEvent.draw ⟨⟨2, [[0,0]]⟩, ⟨2, []⟩, "Test set prediction", "green", "red"⟩,
   VizEvent.savefig "LOF.png" 300]

/-- Witness for C6 on a concrete successful call. -/
theorem C6_four_panels_witness :
    (draw_calls ev_demo).map (fun c => (c.title, c.inlier_color, c.outlier_color)) =
      [("Train set ground truth", "blue", "orange"),
       ("Train set prediction", "blue", "orange"),
       ("Test set ground truth", "green", "red"),
       ("Test set prediction", "green", "red")] :=
  C6_four_panels "LOF" ⟨2, [[0,0]]⟩ [0] ⟨2, [[0,0]]⟩ [0] [0] [0] false true ev_demo rfl

/-- Witness for C7 on a concrete call with `show_figure = false` and
`save_figure = true` for detector name "LOF". -/
theorem C7_save_file_witness :
    save_calls ev_demo = [("LOF.png", 300)] ∧
    display_count ev_demo = (if (false : Bool) then 1 else 0) ∧
    no_save_after_display ev_demo = true :=
  C7_save_file "LOF" ⟨2, [[0,0]]⟩ [0] ⟨2, [[0,0]]⟩ [0] [0] [0] false ev_demo rfl

end PyodViz
